import Mathlib

/-!
# Verification of the shared CPU/GPU data-layout header `ShaderTypes.h`

The repository consists of a single header declaring two record types that
cross the CPU/GPU boundary of a Metal rendering application:

* `MeshVertex`   — `packed_float3 position; packed_float3 normal; simd_packed_float2 uv;`
* `WaveDescriptor` — `unsigned int segmentCount; float time; float waveDensity; float amplitude;`

On the CPU side (`__METAL__` not defined) the header supplies the fallback
`typedef struct { float x; float y; float z; } packed_float3;`.

We embed the *byte layout* of these records.  Every 32-bit field (a
single-precision float or a 32-bit unsigned integer) is represented by its
bit pattern, a natural number below `2^32`; serialization lays the four
bytes of each field out in little-endian order, fields in declaration
order, with no padding — exactly the tightly packed layout the packed
types denote.  Working on bit patterns is faithful for a layout contract:
the boundary copies bytes and never interprets the floats, so preserving
the 32-bit pattern is precisely what "identical field values" means here.
-/

namespace ShaderTypes

/-- Little-endian byte decomposition of a 32-bit word (bit pattern). -/
def word32ToBytes (w : Nat) : List Nat :=
  [w % 256, w / 256 % 256, w / 65536 % 256, w / 16777216 % 256]

/-- Recomposition of a 32-bit word from its four little-endian bytes. -/
def bytesToWord32 (b0 b1 b2 b3 : Nat) : Nat :=
  b0 + 256 * b1 + 65536 * b2 + 16777216 * b3

/-- The CPU-side fallback `typedef struct { float x; float y; float z; } packed_float3;`
from `ShaderTypes.h` (compiled when `__METAL__` is not defined): three separate
32-bit float fields, each held here as its bit pattern. -/
structure packed_float3 where
  x : Nat
  y : Nat
  z : Nat
  deriving Repr, DecidableEq

/-- Modelled from the spec: `simd_packed_float2` of `<simd/simd.h>`, the
"2-component packed single-precision floating-point vector" used for `uv` —
two tightly packed 32-bit floats, held as bit patterns. -/
structure simd_packed_float2 where
  x : Nat
  y : Nat
  deriving Repr, DecidableEq

/-- `struct MeshVertex` of `ShaderTypes.h`: `position`, `normal`, `uv`
in declaration order. -/
structure MeshVertex where
  position : packed_float3
  normal : packed_float3
  uv : simd_packed_float2
  deriving Repr, DecidableEq

/-- `struct WaveDescriptor` of `ShaderTypes.h`: `segmentCount` (32-bit
unsigned integer), then the floats `time`, `waveDensity`, `amplitude`,
in declaration order.  All four fields held as 32-bit patterns. -/
structure WaveDescriptor where
  segmentCount : Nat
  time : Nat
  waveDensity : Nat
  amplitude : Nat
  deriving Repr, DecidableEq

/-- A field bit pattern is representable in 32 bits. -/
abbrev word32Valid (w : Nat) : Prop := w < 4294967296

/-- All fields of a `packed_float3` are 32-bit patterns. -/
abbrev packed_float3.valid (v : packed_float3) : Prop :=
  word32Valid v.x ∧ word32Valid v.y ∧ word32Valid v.z

/-- All fields of a `simd_packed_float2` are 32-bit patterns. -/
abbrev simd_packed_float2.valid (v : simd_packed_float2) : Prop :=
  word32Valid v.x ∧ word32Valid v.y

/-- All fields of a `MeshVertex` are 32-bit patterns. -/
abbrev MeshVertex.valid (v : MeshVertex) : Prop :=
  v.position.valid ∧ v.normal.valid ∧ v.uv.valid

/-- All fields of a `WaveDescriptor` are 32-bit patterns. -/
abbrev WaveDescriptor.valid (d : WaveDescriptor) : Prop :=
  word32Valid d.segmentCount ∧ word32Valid d.time ∧
    word32Valid d.waveDensity ∧ word32Valid d.amplitude

/-- Byte image of the CPU-side fallback `packed_float3`: the three float
fields `x`, `y`, `z` in declaration order, 4 bytes each, no padding. -/
def packed_float3.toBytes (v : packed_float3) : List Nat :=
  word32ToBytes v.x ++ word32ToBytes v.y ++ word32ToBytes v.z

/-- Byte image of `simd_packed_float2`: `x` then `y`, 4 bytes each,
no padding. -/
def simd_packed_float2.toBytes (v : simd_packed_float2) : List Nat :=
  word32ToBytes v.x ++ word32ToBytes v.y

/-- CPU-side byte image of a `MeshVertex`: `position`, `normal`, `uv`
in declaration order, each tightly packed, with no padding anywhere. -/
def serializeMeshVertex (v : MeshVertex) : List Nat :=
  v.position.toBytes ++ v.normal.toBytes ++ v.uv.toBytes

/-- CPU-side byte image of a `WaveDescriptor`: `segmentCount`, `time`,
`waveDensity`, `amplitude` in declaration order, 4 bytes each, no padding. -/
def serializeWaveDescriptor (d : WaveDescriptor) : List Nat :=
  word32ToBytes d.segmentCount ++ word32ToBytes d.time ++
    word32ToBytes d.waveDensity ++ word32ToBytes d.amplitude

/-- Modelled from the spec: Metal's built-in `packed_float3`, used for
`position` and `normal` when the header is compiled as Metal shader code
(`__METAL__` defined) — "3 packed single-precision floating-point
components (x, y, z) … tightly packed with no padding between components". -/
structure MetalPackedFloat3 where
  x : Nat
  y : Nat
  z : Nat
  deriving Repr, DecidableEq

/-- Modelled from the spec: Metal's built-in `packed_float2`
(`simd_packed_float2` on the shader side) — two tightly packed 32-bit
float components. -/
structure MetalPackedFloat2 where
  x : Nat
  y : Nat
  deriving Repr, DecidableEq

/-- The GPU-side reading of `struct MeshVertex`: the same header compiled
with `__METAL__` defined, where the packed vector types are Metal's
built-ins. -/
structure GPUMeshVertex where
  position : MetalPackedFloat3
  normal : MetalPackedFloat3
  uv : MetalPackedFloat2
  deriving Repr, DecidableEq

/-- Byte image of Metal's `packed_float3`: `x`, `y`, `z`, 4 bytes each,
tightly packed. -/
def MetalPackedFloat3.toBytes (v : MetalPackedFloat3) : List Nat :=
  word32ToBytes v.x ++ word32ToBytes v.y ++ word32ToBytes v.z

/-- Byte image of Metal's `packed_float2`: `x` then `y`, tightly packed. -/
def MetalPackedFloat2.toBytes (v : MetalPackedFloat2) : List Nat :=
  word32ToBytes v.x ++ word32ToBytes v.y

/-- GPU-side byte image of a `MeshVertex`. -/
def serializeGPUMeshVertex (v : GPUMeshVertex) : List Nat :=
  v.position.toBytes ++ v.normal.toBytes ++ v.uv.toBytes

/-- The field-for-field correspondence between the CPU-side and GPU-side
views of a `MeshVertex` (the two sides declare the same fields in the same
order). -/
def MeshVertex.toGPU (v : MeshVertex) : GPUMeshVertex :=
  ⟨⟨v.position.x, v.position.y, v.position.z⟩,
   ⟨v.normal.x, v.normal.y, v.normal.z⟩,
   ⟨v.uv.x, v.uv.y⟩⟩

/-- GPU-side read of a `MeshVertex` from its 32-byte image: a byte-for-byte
reinterpretation of the buffer under the Metal packed layout.  Any byte
sequence that is not exactly 32 bytes has no `MeshVertex` reading. -/
def gpuDeserializeMeshVertex : List Nat → Option GPUMeshVertex
  | [p0, p1, p2, p3, p4, p5, p6, p7, p8, p9, p10, p11,
     n0, n1, n2, n3, n4, n5, n6, n7, n8, n9, n10, n11,
     u0, u1, u2, u3, u4, u5, u6, u7] =>
      some ⟨⟨bytesToWord32 p0 p1 p2 p3, bytesToWord32 p4 p5 p6 p7,
             bytesToWord32 p8 p9 p10 p11⟩,
            ⟨bytesToWord32 n0 n1 n2 n3, bytesToWord32 n4 n5 n6 n7,
             bytesToWord32 n8 n9 n10 n11⟩,
            ⟨bytesToWord32 u0 u1 u2 u3, bytesToWord32 u4 u5 u6 u7⟩⟩
  | _ => none

/-- GPU-side read of a `WaveDescriptor` from its 16-byte image.  The
descriptor uses only scalar fields, so both sides of the boundary share
one and the same record declaration. -/
def deserializeWaveDescriptor : List Nat → Option WaveDescriptor
  | [c0, c1, c2, c3, t0, t1, t2, t3, w0, w1, w2, w3, a0, a1, a2, a3] =>
      some ⟨bytesToWord32 c0 c1 c2 c3, bytesToWord32 t0 t1 t2 t3,
            bytesToWord32 w0 w1 w2 w3, bytesToWord32 a0 a1 a2 a3⟩
  | _ => none

/-- IEEE-754 single-precision bit pattern of `1.0f`: sign 0, biased
exponent 127, mantissa 0, i.e. `127 * 2^23 = 0x3F800000`. -/
def float32One : Nat := 1065353216

/-- IEEE-754 single-precision bit pattern of `0.0f`. -/
def float32Zero : Nat := 0

/-- IEEE-754 single-precision bit pattern of a quiet NaN (`0x7FC00000`). -/
def float32QuietNaN : Nat := 2143289344

/-- IEEE-754 single-precision bit pattern of `+infinity` (`0x7F800000`). -/
def float32PosInf : Nat := 2139095040

/-- IEEE-754 single-precision bit pattern of `-infinity` (`0xFF800000`). -/
def float32NegInf : Nat := 4286578688

/-- IEEE-754 single-precision bit pattern of `-0.0f` (`0x80000000`). -/
def float32NegZero : Nat := 2147483648

/-- The compile-time size/offset assertions (`static_assert` or
equivalent) appearing in `ShaderTypes.h`: the header contains none. -/
def shaderTypesStaticAssertions : List String := []

/-- C1: for every `MeshVertex` and every `WaveDescriptor` with valid (32-bit)
field values, writing the record through the CPU-side representation and
reading it back through the GPU-side representation — a byte-for-byte
reinterpretation of the same layout — yields a record whose field values are
identical to the original. -/
theorem roundtrip_cpu_write_gpu_read (v : MeshVertex) (hv : v.valid)
    (d : WaveDescriptor) (hd : d.valid) :
    gpuDeserializeMeshVertex (serializeMeshVertex v) = some v.toGPU ∧
      deserializeWaveDescriptor (serializeWaveDescriptor d) = some d := by
  obtain ⟨⟨hpx, hpy, hpz⟩, ⟨hnx, hny, hnz⟩, hux, huy⟩ := hv
  obtain ⟨hc, ht, hw, ha⟩ := hd
  simp only [word32Valid] at *
  constructor
  · simp only [serializeMeshVertex, packed_float3.toBytes, simd_packed_float2.toBytes,
      word32ToBytes, List.cons_append, List.nil_append, gpuDeserializeMeshVertex,
      MeshVertex.toGPU, Option.some.injEq, GPUMeshVertex.mk.injEq,
      MetalPackedFloat3.mk.injEq, MetalPackedFloat2.mk.injEq, bytesToWord32]
    omega
  · cases d with
    | mk c t w a =>
      simp only [serializeWaveDescriptor, word32ToBytes, List.cons_append, List.nil_append,
        deserializeWaveDescriptor, Option.some.injEq, WaveDescriptor.mk.injEq, bytesToWord32]
      simp only at hc ht hw ha
      omega

/-- Witness for C1 at concrete field values. -/
theorem roundtrip_cpu_write_gpu_read_witness :
    gpuDeserializeMeshVertex
        (serializeMeshVertex ⟨⟨1, 2, 3⟩, ⟨4, 5, 6⟩, ⟨7, 8⟩⟩) =
        some (MeshVertex.toGPU ⟨⟨1, 2, 3⟩, ⟨4, 5, 6⟩, ⟨7, 8⟩⟩) ∧
      deserializeWaveDescriptor (serializeWaveDescriptor ⟨9, 10, 11, 12⟩) =
        some ⟨9, 10, 11, 12⟩ :=
  roundtrip_cpu_write_gpu_read ⟨⟨1, 2, 3⟩, ⟨4, 5, 6⟩, ⟨7, 8⟩⟩ (by decide)
    ⟨9, 10, 11, 12⟩ (by decide)

/-- C2: every `MeshVertex` occupies exactly 8 single-precision components
(3 position + 3 normal + 2 uv) of 4 bytes each with no inserted padding
anywhere: its byte image is exactly 32 bytes, the concatenation of the
eight 4-byte component encodings. -/
theorem meshVertex_byte_size (v : MeshVertex) :
    (serializeMeshVertex v).length = 32 ∧
      serializeMeshVertex v =
        word32ToBytes v.position.x ++ (word32ToBytes v.position.y ++ (word32ToBytes v.position.z ++
          (word32ToBytes v.normal.x ++ (word32ToBytes v.normal.y ++ (word32ToBytes v.normal.z ++
            (word32ToBytes v.uv.x ++ word32ToBytes v.uv.y)))))) := by
  simp [serializeMeshVertex, packed_float3.toBytes, simd_packed_float2.toBytes, word32ToBytes]

/-- C3: every `WaveDescriptor` occupies exactly one 32-bit unsigned integer
plus three single-precision floats — 16 bytes — laid out in the declared
field order `segmentCount`, `time`, `waveDensity`, `amplitude`. -/
theorem waveDescriptor_byte_size (d : WaveDescriptor) :
    (serializeWaveDescriptor d).length = 16 ∧
      serializeWaveDescriptor d =
        word32ToBytes d.segmentCount ++ (word32ToBytes d.time ++
          (word32ToBytes d.waveDensity ++ word32ToBytes d.amplitude)) := by
  simp [serializeWaveDescriptor, word32ToBytes]

/-- C4: the `MeshVertex` layout has the same field order and component
widths in every context that includes the definition — the GPU-side
serialization of the corresponding record is byte-for-byte the CPU-side
one — every component is a 32-bit (4-byte) float, and no padding is
introduced between the packed `position`, `normal`, `uv` sub-components
(the total is exactly 12 + 12 + 8 bytes). -/
theorem meshVertex_layout_stable (v : MeshVertex) :
    serializeGPUMeshVertex v.toGPU = serializeMeshVertex v ∧
      (serializeMeshVertex v).length = 12 + 12 + 8 ∧
      (∀ w : Nat, (word32ToBytes w).length = 4) := by
  refine ⟨rfl, ?_, fun w => rfl⟩
  simp [serializeMeshVertex, packed_float3.toBytes, simd_packed_float2.toBytes, word32ToBytes]

/-- C5: the CPU-side definitions (with the fallback `packed_float3`) and
the GPU-side definitions (with the Metal built-in packed types) agree on
byte layout and byte size for both record types: corresponding records
serialize to identical bytes, and both sides compute the same sizes
(32 bytes for `MeshVertex`, 16 for `WaveDescriptor`, whose single record
declaration is shared by both sides). -/
theorem cpu_gpu_layout_agreement :
    (∀ v : MeshVertex, serializeMeshVertex v = serializeGPUMeshVertex v.toGPU) ∧
      (∀ v : MeshVertex, (serializeMeshVertex v).length = 32) ∧
      (∀ g : GPUMeshVertex, (serializeGPUMeshVertex g).length = 32) ∧
      (∀ d : WaveDescriptor, (serializeWaveDescriptor d).length = 16) := by
  refine ⟨fun v => rfl, fun v => ?_, fun g => ?_, fun d => ?_⟩ <;>
    simp [serializeMeshVertex, serializeGPUMeshVertex, serializeWaveDescriptor,
      packed_float3.toBytes, simd_packed_float2.toBytes, MetalPackedFloat3.toBytes,
      MetalPackedFloat2.toBytes, word32ToBytes]

/-- C6 (counterexample): `ShaderTypes.h` contains no static size/offset
assertion or equivalent compile-time check — the list of such assertions in
the header is empty, contradicting the claim that the layout guarantee is
validated by explicit assertions in the source. -/
theorem no_static_assertions_in_header : shaderTypesStaticAssertions = [] := rfl

/-- C6 (amended): the source contains no static size/offset assertions or
equivalent compile-time check; the layout guarantee instead follows from the
packed-type field declarations themselves — in the embedding, the size and
component-width properties are provable directly from the definitions. -/
theorem layout_guarantee_by_definitions :
    shaderTypesStaticAssertions = [] ∧
      (∀ v : MeshVertex, (serializeMeshVertex v).length = 32) ∧
      (∀ d : WaveDescriptor, (serializeWaveDescriptor d).length = 16) ∧
      (∀ w : Nat, (word32ToBytes w).length = 4) := by
  refine ⟨rfl, fun v => ?_, fun d => ?_, fun w => rfl⟩ <;>
    simp [serializeMeshVertex, serializeWaveDescriptor, packed_float3.toBytes,
      simd_packed_float2.toBytes, word32ToBytes]

/-- C7: a `WaveDescriptor` with `segmentCount = 0` is a valid value at the
layout layer: it serializes to the full 16 bytes and reads back unchanged —
the layout performs no rejection or guarding of the zero value. -/
theorem waveDescriptor_segmentCount_zero (t w a : Nat)
    (ht : word32Valid t) (hw : word32Valid w) (ha : word32Valid a) :
    (serializeWaveDescriptor ⟨0, t, w, a⟩).length = 16 ∧
      deserializeWaveDescriptor (serializeWaveDescriptor ⟨0, t, w, a⟩) =
        some ⟨0, t, w, a⟩ := by
  simp only [word32Valid] at *
  constructor
  · simp [serializeWaveDescriptor, word32ToBytes]
  · simp only [serializeWaveDescriptor, word32ToBytes, List.cons_append, List.nil_append,
      deserializeWaveDescriptor, Option.some.injEq, WaveDescriptor.mk.injEq, bytesToWord32,
      true_and, and_true]
    omega

/-- Witness for C7 at concrete float bit patterns. -/
theorem waveDescriptor_segmentCount_zero_witness :
    (serializeWaveDescriptor ⟨0, 1, 2, 3⟩).length = 16 ∧
      deserializeWaveDescriptor (serializeWaveDescriptor ⟨0, 1, 2, 3⟩) =
        some ⟨0, 1, 2, 3⟩ :=
  waveDescriptor_segmentCount_zero 1 2 3 (by decide) (by decide) (by decide)

/-- C8: the `MeshVertex` with position `(0,0,0)`, normal `(0,1,0)`, uv
`(0,0)` serializes to one fixed 32-byte sequence — all zeros except the
four bytes at offsets 16–19 encoding the float `1.0` (little-endian
`0x3F800000`, i.e. `00 00 80 3F`) — identical on the producer (CPU) and
consumer (GPU) sides. -/
theorem meshVertex_canonical_byte_sequence :
    serializeMeshVertex ⟨⟨float32Zero, float32Zero, float32Zero⟩,
        ⟨float32Zero, float32One, float32Zero⟩, ⟨float32Zero, float32Zero⟩⟩ =
      [0, 0, 0, 0, 0, 0, 0, 0, 0, 0, 0, 0, 0, 0, 0, 0,
       0, 0, 128, 63, 0, 0, 0, 0, 0, 0, 0, 0, 0, 0, 0, 0] ∧
    serializeGPUMeshVertex (MeshVertex.toGPU ⟨⟨float32Zero, float32Zero, float32Zero⟩,
        ⟨float32Zero, float32One, float32Zero⟩, ⟨float32Zero, float32Zero⟩⟩) =
      [0, 0, 0, 0, 0, 0, 0, 0, 0, 0, 0, 0, 0, 0, 0, 0,
       0, 0, 128, 63, 0, 0, 0, 0, 0, 0, 0, 0, 0, 0, 0, 0] := by
  constructor <;> decide

/-- C9: the fallback `packed_float3` is exactly its three float fields `x`,
`y`, `z` in order in 12 contiguous bytes, so the `MeshVertex` fields sit at
byte offsets `position = 0`, `normal = 12`, `uv = 24`, and the
`WaveDescriptor` fields at `segmentCount = 0`, `time = 4`,
`waveDensity = 8`, `amplitude = 12`. -/
theorem field_offsets (v : MeshVertex) (d : WaveDescriptor) :
    v.position.toBytes =
      word32ToBytes v.position.x ++ (word32ToBytes v.position.y ++ word32ToBytes v.position.z) ∧
      (v.position.toBytes).length = 12 ∧
      ((serializeMeshVertex v).drop 0).take 12 = v.position.toBytes ∧
      ((serializeMeshVertex v).drop 12).take 12 = v.normal.toBytes ∧
      ((serializeMeshVertex v).drop 24).take 8 = v.uv.toBytes ∧
      ((serializeWaveDescriptor d).drop 0).take 4 = word32ToBytes d.segmentCount ∧
      ((serializeWaveDescriptor d).drop 4).take 4 = word32ToBytes d.time ∧
      ((serializeWaveDescriptor d).drop 8).take 4 = word32ToBytes d.waveDensity ∧
      ((serializeWaveDescriptor d).drop 12).take 4 = word32ToBytes d.amplitude := by
  simp [serializeMeshVertex, serializeWaveDescriptor, packed_float3.toBytes,
    simd_packed_float2.toBytes, word32ToBytes]

/-- C10: the byte-level round trip preserves the exact 32-bit pattern of
every field for every input, not only "valid" ones: every `segmentCount`
value from `0` to `2^32 - 1` and non-finite or non-normal float patterns
(quiet NaN, positive and negative infinity, negative zero) in any float
field come back bit-identical, with nothing normalized, clamped, or
rejected. -/
theorem bit_pattern_preservation (s t w a : Nat) (hs : word32Valid s)
    (ht : word32Valid t) (hw : word32Valid w) (ha : word32Valid a) :
    deserializeWaveDescriptor (serializeWaveDescriptor ⟨s, t, w, a⟩) = some ⟨s, t, w, a⟩ ∧
      deserializeWaveDescriptor (serializeWaveDescriptor
          ⟨s, float32QuietNaN, float32NegInf, float32NegZero⟩) =
        some ⟨s, float32QuietNaN, float32NegInf, float32NegZero⟩ ∧
      gpuDeserializeMeshVertex (serializeMeshVertex
          ⟨⟨float32QuietNaN, float32PosInf, float32NegInf⟩,
           ⟨float32NegZero, float32QuietNaN, float32PosInf⟩,
           ⟨float32NegZero, float32QuietNaN⟩⟩) =
        some (MeshVertex.toGPU
          ⟨⟨float32QuietNaN, float32PosInf, float32NegInf⟩,
           ⟨float32NegZero, float32QuietNaN, float32PosInf⟩,
           ⟨float32NegZero, float32QuietNaN⟩⟩) := by
  simp only [word32Valid] at *
  refine ⟨?_, ?_, by decide⟩ <;>
    · simp only [serializeWaveDescriptor, word32ToBytes, List.cons_append, List.nil_append,
        deserializeWaveDescriptor, Option.some.injEq, WaveDescriptor.mk.injEq, bytesToWord32,
        true_and, and_true, float32QuietNaN, float32NegInf, float32NegZero]
      omega

/-- Witness for C10 at the extreme `segmentCount` value `2^32 - 1` and
arbitrary float bit patterns. -/
theorem bit_pattern_preservation_witness :
    deserializeWaveDescriptor (serializeWaveDescriptor ⟨4294967295, 1, 2, 3⟩) =
        some ⟨4294967295, 1, 2, 3⟩ ∧
      deserializeWaveDescriptor (serializeWaveDescriptor
          ⟨4294967295, float32QuietNaN, float32NegInf, float32NegZero⟩) =
        some ⟨4294967295, float32QuietNaN, float32NegInf, float32NegZero⟩ ∧
      gpuDeserializeMeshVertex (serializeMeshVertex
          ⟨⟨float32QuietNaN, float32PosInf, float32NegInf⟩,
           ⟨float32NegZero, float32QuietNaN, float32PosInf⟩,
           ⟨float32NegZero, float32QuietNaN⟩⟩) =
        some (MeshVertex.toGPU
          ⟨⟨float32QuietNaN, float32PosInf, float32NegInf⟩,
           ⟨float32NegZero, float32QuietNaN, float32PosInf⟩,
           ⟨float32NegZero, float32QuietNaN⟩⟩) :=
  bit_pattern_preservation 4294967295 1 2 3 (by decide) (by decide) (by decide) (by decide)

end ShaderTypes
